import Mathlib

/-!
Verification development for the codex-mcp-orchestra agent session protocol
engine: a shallow embedding of `src/services/mcp_sse_client.py` (session
client facade, request correlator, session handshake, streaming aggregator,
tools listing, health check) and `src/mcp/codex-mcp-gateway.py` (process
boundary translator: stdout filtering and event conversion).

Conventions of the embedding:
* Parsed JSON values are modelled by the inductive `Json`; Python dict
  `d.get(k, default)` is `jGetD`, `k in d` is `jHasKey`, truthiness is
  `pyTruthy`.
* Async generators are modelled as pure functions from the list of parsed
  server-sent events (plus an environment fixing HTTP responses) to the
  list of yielded items.  Any exception raised while processing an event
  (network errors, timeouts, attribute errors on malformed payloads) is
  represented by an explicit `SSEEvent.raises` element of the stream, which
  the surrounding `except` clauses of the source turn into a final yielded
  error item.
* Wall-clock behaviour (sleeps, the bounded poll for `session_configured`)
  has no observable effect on yielded values and is elided.
-/

/-- JSON values as produced by `json.loads`.  Numbers are modelled as
integers (the protocol only uses integral ids and status-like fields). -/
inductive Json where
  | null : Json
  | bool : Bool → Json
  | num : Int → Json
  | str : String → Json
  | arr : List Json → Json
  | obj : List (String × Json) → Json

/-- Lookup of a key in an association list (Python dict lookup; parsed JSON
objects have distinct keys, so first-match lookup agrees with dict access). -/
def lookupKv : List (String × Json) → String → Option Json
  | [], _ => none
  | (k, v) :: rest, key => if k = key then some v else lookupKv rest key

/-- `d.get(k)` on a JSON object; `none` when the receiver is not an object
or the key is absent. -/
def jGet (j : Json) (key : String) : Option Json :=
  match j with
  | Json.obj kvs => lookupKv kvs key
  | _ => none

/-- `d.get(k, default)`. -/
def jGetD (j : Json) (key : String) (dflt : Json) : Json :=
  (jGet j key).getD dflt

/-- `k in d` for a JSON object. -/
def jHasKey (j : Json) (key : String) : Bool :=
  (jGet j key).isSome

/-- Python truthiness of a parsed JSON value. -/
def pyTruthy : Json → Bool
  | Json.null => false
  | Json.bool b => b
  | Json.num n => n != 0
  | Json.str s => s != ""
  | Json.arr xs => !xs.isEmpty
  | Json.obj kvs => !kvs.isEmpty

/-- `"".join(chunks)` over collected delta fragments.  The source only ever
appends the (string) `delta`/text fields it extracted with a `""` default;
non-string members would raise in Python and never reach a joined result. -/
def strJoin (l : List Json) : String :=
  (l.map fun j => match j with | Json.str s => s | _ => "").foldl (· ++ ·) ""

/-- Agent endpoint registry entry (`MCPServer` dataclass). -/
structure MCPServer where
  name : String
  url : String
  codex_home : String
  tool_name : String

/-- The registry built in `MCPSSEClient.__init__`, parameterised by the
`CODEX_BASE_DIR` base directory. -/
def servers (baseDir : String) : List (String × MCPServer) :=
  [ ("router", { name := "router", url := "http://127.0.0.1:8090",
                 codex_home := baseDir ++ "/.codex", tool_name := "codex" }),
    ("office", { name := "office", url := "http://127.0.0.1:8081",
                 codex_home := baseDir ++ "/admin/.codex", tool_name := "codex" }),
    ("analyst", { name := "analyst", url := "http://127.0.0.1:8082",
                  codex_home := baseDir ++ "/investing/.codex", tool_name := "codex-custom" }) ]

/-- The registry's key set, in insertion order (`self.servers.keys()`). -/
def serverNames : List String := ["router", "office", "analyst"]

/-- `server_name in self.servers`. -/
def knownServer (name : String) : Bool := serverNames.contains name

/-- `MCPSSEClient._get_next_id`: returns the current counter value and the
updated counter.  The Python body contains no suspension point, so under
asyncio's cooperative scheduling each call executes atomically even when
made from concurrently in-flight requests; a process execution is therefore
a serial sequence of these state transitions. -/
def get_next_id (s : Nat) : Nat × Nat := (s, s + 1)

/-- The ids returned by `n` successive `_get_next_id` calls starting from
counter state `s` (the counter is created holding `1`). -/
def nextIds : Nat → Nat → List Nat
  | 0, _ => []
  | n + 1, s =>
    let p := get_next_id s
    p.1 :: nextIds n p.2

/-! ## Process Boundary Translator (`src/mcp/codex-mcp-gateway.py`) -/

/-- `BANNER_HINTS` from the gateway. -/
def BANNER_HINTS : List String :=
  ["MCP Doc Forge Server", "Server is running", "Starting", "Listening"]

/-- Does `pat` occur as a contiguous run at the head of the character list? -/
def hasPre : List Char → List Char → Bool
  | [], _ => true
  | _ :: _, [] => false
  | a :: as, b :: bs => a == b && hasPre as bs

/-- Does `pat` occur as a contiguous run anywhere in the character list? -/
def hasSub (pat : List Char) : List Char → Bool
  | [] => pat.isEmpty
  | c :: rest => hasPre pat (c :: rest) || hasSub pat rest

/-- Python `pat in s` substring containment. -/
def strContains (s pat : String) : Bool := hasSub pat.toList s.toList

/-- Python `s.startswith(pre)`. -/
def strStarts (s pre : String) : Bool := hasPre pre.toList s.toList

/-- The whitespace characters Python `str.strip` removes. -/
def isPySpace (c : Char) : Bool :=
  c == ' ' || c == '\t' || c == '\n' || c == '\r' ||
  c == Char.ofNat 11 || c == Char.ofNat 12

/-- Python `s.strip()`. -/
def pyStrip (s : String) : String :=
  String.mk (((s.toList.dropWhile isPySpace).reverse.dropWhile isPySpace).reverse)

/-- `CodexGateway.convert_event`: translate a parsed `codex/event` envelope
into the wire notification vocabulary; `none` drops the line. -/
def convert_event (o : Json) : Option Json :=
  let params := jGetD o "params" (Json.obj [])
  let msg := jGetD params "msg" (Json.obj [])
  match jGet msg "type" with
  | some (Json.str t) =>
    if t = "session_configured" then
      none
    else if t = "agent_message_delta" then
      some (Json.obj
        [ ("jsonrpc", Json.str "2.0"),
          ("method", Json.str ("notifications/" ++ t)),
          ("params", Json.obj
            [ ("type", Json.str t),
              ("delta", jGetD msg "delta" (Json.str "")) ]) ])
    else if t = "agent_reasoning_delta" ∨ t = "agent_reasoning_raw_content_delta" then
      some (Json.obj
        [ ("jsonrpc", Json.str "2.0"),
          ("method", Json.str ("notifications/" ++ t)),
          ("params", Json.obj
            [ ("type", Json.str t),
              ("delta", jGetD msg "delta" (Json.str "")) ]) ])
    else if t = "mcp_tool_call_begin" ∨ t = "mcp_tool_call_end" then
      some (Json.obj
        [ ("jsonrpc", Json.str "2.0"),
          ("method", Json.str ("notifications/" ++ t)),
          ("params", msg) ])
    else if t = "task_complete" then
      some o
    else
      some (Json.obj
        [ ("jsonrpc", Json.str "2.0"),
          ("method", Json.str "notifications/message"),
          ("params", Json.obj
            [ ("level", Json.str "info"),
              ("data", msg),
              ("logger", Json.str "codex") ]) ])
  | _ =>
    some (Json.obj
      [ ("jsonrpc", Json.str "2.0"),
        ("method", Json.str "notifications/message"),
        ("params", Json.obj
          [ ("level", Json.str "info"),
            ("data", msg),
            ("logger", Json.str "codex") ]) ])

/-- `obj.get("method") == "codex/event"` (false when the field is absent
or not a string). -/
def methodIsCodexEvent (o : Json) : Bool :=
  match jGet o "method" with
  | some (Json.str m) => m == "codex/event"
  | _ => false

/-- Diagnostic notes the gateway prints to its own stderr channel. -/
inductive GatewayNote where
  | droppedBanner : String → GatewayNote
  | invalidJson : String → GatewayNote

/-- One iteration of `CodexGateway.filter_stdout` on a decoded line:
returns the JSON objects emitted on the protocol output stream and the
diagnostic notes written to the gateway error channel.  `parse` stands for
`json.loads` restricted to success (`none` = `JSONDecodeError`). -/
def filter_stdout_line (parse : String → Option Json) (line : String) :
    List Json × List GatewayNote :=
  let line_str := pyStrip line
  if line_str = "" ∨ (¬ strStarts line_str "\x7b" ∧ ¬ strStarts line_str "[") then
    if BANNER_HINTS.any (fun hint => strContains line_str hint) then
      ([], [GatewayNote.droppedBanner line_str])
    else
      ([], [])
  else
    match parse line_str with
    | none => ([], [GatewayNote.invalidJson line_str])
    | some o =>
      if methodIsCodexEvent o then
        match convert_event o with
        | none => ([], [])
        | some converted => ([converted], [])
      else
        ([o], [])

/-! ## Session handshake (`MCPSSEClient._initialize_session_with_id`) -/

/-- Exceptions that can surface from the HTTP/SSE layer or from processing
a malformed payload. -/
inductive PyExn where
  | timeout : PyExn
  | httpStatus : Nat → String → PyExn
  | valueError : String → PyExn
  | other : String → PyExn

/-- HTTP-level acceptance test used throughout the client:
`status_code in (200, 202)`. -/
def acceptStatus (s : Nat) : Bool := s == 200 || s == 202

/-- The two POST outcomes the handshake can observe: each send either
returns a status code or raises. -/
structure HandshakeEnv where
  initResp : Except PyExn Nat
  notifResp : Except PyExn Nat

/-- The `initialize` request body built by the handshake, with the
caller-supplied identifier. -/
def mkInitRequest (init_id : Int) : Json :=
  Json.obj
    [ ("jsonrpc", Json.str "2.0"),
      ("method", Json.str "initialize"),
      ("params", Json.obj
        [ ("protocolVersion", Json.str "0.1.0"),
          ("capabilities", Json.obj
            [ ("tools", Json.obj []),
              ("prompts", Json.obj []),
              ("resources", Json.obj []) ]),
          ("clientInfo", Json.obj
            [ ("name", Json.str "bridge-client"),
              ("version", Json.str "1.0.0") ]) ]),
      ("id", Json.num init_id) ]

/-- The `initialized` notification body (sent without an identifier). -/
def initdNotif : Json :=
  Json.obj
    [ ("jsonrpc", Json.str "2.0"),
      ("method", Json.str "notifications/initialized"),
      ("params", Json.obj []) ]

/-- `MCPSSEClient._initialize_session_with_id`: POST the `initialize`
request; on an acceptance status POST the `initialized` notification and
report whether it was accepted too.  Any exception is caught and reported
as failure. -/
def init_session_with_id (env : HandshakeEnv) : Bool :=
  match env.initResp with
  | Except.error _ => false
  | Except.ok s =>
    if acceptStatus s then
      match env.notifResp with
      | Except.error _ => false
      | Except.ok s2 => acceptStatus s2
    else
      false

/-! ## Streaming aggregator (`MCPSSEClient.send_prompt`) -/

/-- Stand-in for Python `str()` on a decoded JSON payload, used only inside
human-readable error strings; no claim depends on its exact text. -/
def jsonStr : Json → String
  | Json.null => "None"
  | Json.bool b => if b then "True" else "False"
  | Json.num n => toString n
  | Json.str s => s
  | Json.arr _ => "[...]"
  | Json.obj _ => "\x7b...\x7d"

/-- Items the `send_prompt` generator yields before any terminal item:
`{"type": "chunk"|"message"|"reasoning", "content": ...}` dictionaries. -/
inductive NonTerm where
  | chunk : Json → NonTerm
  | message : Json → NonTerm
  | reasoning : Json → NonTerm

/-- Terminal items: `{"type": "result"|"error", "content": ...}`.  In the
source every yield of one of these is immediately followed by `return`. -/
inductive TermItem where
  | result : Json → TermItem
  | error : Json → TermItem

/-- An item yielded by the generator. -/
inductive OutItem where
  | live : NonTerm → OutItem
  | term : TermItem → OutItem

/-- Is the yielded item a terminal (`result` or `error`) item? -/
def isTermOut : OutItem → Bool
  | OutItem.live _ => false
  | OutItem.term _ => true

/-- Is the yielded item a `result` item? -/
def isResultOut : OutItem → Bool
  | OutItem.term (TermItem.result _) => true
  | _ => false

/-- A server-sent event as the loop sees it.  `message` carries the
successfully parsed JSON body of a `message` (or unnamed data) event;
`invalidJson` is a body that raises `json.JSONDecodeError`; `raises`
stands for any exception surfacing while awaiting or processing an event
(network error, timeout, attribute error on a malformed payload), which
the `except` clauses of the source turn into one final error item. -/
inductive SSEEvent where
  | endpoint : String → SSEEvent
  | message : Json → SSEEvent
  | invalidJson : SSEEvent
  | otherEv : SSEEvent
  | raises : PyExn → SSEEvent

/-- Network side effects performed by one call. -/
inductive IOAction where
  | connectSSE : String → IOAction
  | postInit : String → IOAction
  | postPrompt : String → IOAction
  | postToolsList : String → IOAction

/-- Fixed outcomes of the HTTP requests `send_prompt` makes once the
endpoint event arrives. -/
structure PromptEnv where
  initOk : Bool
  promptStatus : Nat
  promptText : String

/-- The aggregation state of the `send_prompt` event loop
(source lines 164-179). -/
structure LoopState where
  endpointUrl : Option String := none
  promptSent : Bool := false
  taskComplete : Bool := false
  collectedResult : Option Json := none
  sessionConfigured : Bool := false
  reasoningChunks : List Json := []
  messageChunks : List Json := []
  hasToolError : Bool := false

/-- The message the `except` clauses (source lines 424-443) put into the
final error item for an exception that escapes the event loop. -/
def exnMessage : PyExn → String
  | PyExn.httpStatus code text => "HTTP " ++ toString code ++ ": " ++ text
  | PyExn.timeout => "Request timed out waiting for response"
  | PyExn.valueError m => m
  | PyExn.other m => m

/-- The `if "method" in data:` dispatch of the loop (source lines 245-358).
Returns the live items yielded and the updated state.  A non-string
`method` value, which would raise `AttributeError` on `startswith` in
Python, is represented in a stream by an `SSEEvent.raises` element instead
and is a no-op here. -/
def methodDispatch (stream : Bool) (st : LoopState) (data : Json) :
    List NonTerm × LoopState :=
  match jGet data "method" with
  | some (Json.str method) =>
    if method = "codex/event" then
      let params := jGetD data "params" (Json.obj [])
      let msg := jGetD params "msg" (Json.obj [])
      match jGet msg "type" with
      | some (Json.str et) =>
        if et = "session_configured" then
          ([], { st with sessionConfigured := true })
        else if et = "agent_message_delta" then
          let content := jGetD msg "delta" (Json.str "")
          ((if stream && pyTruthy content then [NonTerm.chunk content] else []), st)
        else if et = "task_complete" then
          let last_agent_message := jGetD msg "last_agent_message" (Json.str "")
          if pyTruthy last_agent_message then
            ([], { st with
                    taskComplete := true,
                    collectedResult := some (Json.obj
                      [ ("content", Json.arr
                          [Json.obj [("type", Json.str "text"),
                                     ("text", last_agent_message)]]),
                        ("isError", Json.bool false) ]) })
          else
            ([], { st with taskComplete := true })
        else
          ([], st)
      | _ => ([], st)
    else if method = "session_configured" then
      ([], { st with sessionConfigured := true })
    else if strStarts method "notifications/" then
      let params := jGetD data "params" (Json.obj [])
      match jGetD params "type" (Json.str "") with
      | Json.str event_type =>
        if event_type = "agent_message_delta" then
          let delta := jGetD params "delta" (Json.str "")
          ((if stream && pyTruthy delta then [NonTerm.message delta] else []),
           { st with messageChunks := st.messageChunks ++ [delta] })
        else if event_type = "agent_reasoning_delta" ∨
            event_type = "agent_reasoning_raw_content_delta" then
          let delta := jGetD params "delta" (Json.str "")
          ((if stream && pyTruthy delta then [NonTerm.reasoning delta] else []),
           { st with reasoningChunks := st.reasoningChunks ++ [delta] })
        else if event_type = "mcp_tool_call_end" then
          match jGetD params "result" (Json.obj []) with
          | Json.obj kvs =>
            if (lookupKv kvs "error").isSome then
              ([], { st with hasToolError := true })
            else
              ([], st)
          | _ => ([], st)
        else
          ([], st)
      | _ => ([], st)
    else if method = "task_complete" then
      let params := jGetD data "params" (Json.obj [])
      let final_message :=
        if !st.messageChunks.isEmpty then Json.str (strJoin st.messageChunks)
        else jGetD params "last_agent_message" (Json.str "")
      ([], { st with
              taskComplete := true,
              collectedResult := some (Json.obj
                [ ("reasoning", Json.str (strJoin st.reasoningChunks)),
                  ("message", final_message),
                  ("had_retry", Json.bool st.hasToolError) ]) })
    else
      -- The `elif method == "notifications/message"` arm (source lines
      -- 333-358) is unreachable: the `startswith("notifications/")` arm
      -- above always captures that method first.
      ([], st)
  | _ => ([], st)

/-- The id-correlation stage of the loop (source lines 360-395): claim a
response whose id equals the prompt request id, else fall back to bare
`chunk` dictionaries when streaming. -/
def idStage (stream : Bool) (pid : Int) (st : LoopState) (data : Json) :
    List NonTerm × Option TermItem × LoopState :=
  let message_id := jGet data "id"
  let isMatch : Bool := match message_id with
    | some (Json.num n) => n == pid
    | _ => false
  if isMatch then
    if jHasKey data "result" then
      let st1 :=
        if st.collectedResult.isNone then
          { st with collectedResult := some (jGetD data "result" Json.null) }
        else st
      match st1.collectedResult with
      | some r => ([], some (TermItem.result r), st1)
      | none => ([], none, st1)
    else if jHasKey data "error" then
      let err := jGetD data "error" Json.null
      let content := match err with
        | Json.obj kvs =>
          match lookupKv kvs "message" with
          | some m => m
          | none => Json.str (jsonStr err)
        | _ => Json.str (jsonStr err)
      ([], some (TermItem.error content), st)
    else
      ([], none, st)
  else
    -- `elif stream and prompt_sent and not message_id:` — prompt_sent is
    -- already known true when this stage runs; `not` is Python falsiness
    let noId : Bool := match message_id with
      | none => true
      | some v => !pyTruthy v
    if stream && noId then
      if jHasKey data "chunk" then
        ([NonTerm.chunk (jGetD data "chunk" Json.null)], none, st)
      else
        ([], none, st)
    else
      ([], none, st)

/-- The end-of-iteration check (source line 402): terminate with the
collected result once the terminal marker has been seen. -/
def completionCheck (st : LoopState) : Option TermItem :=
  if st.taskComplete then
    match st.collectedResult with
    | some r => some (TermItem.result r)
    | none => none
  else
    none

/-- Processing of one parsed `message` event after the prompt was sent
(source lines 238-399 followed by the line-402 check). -/
def stepMessage (stream : Bool) (pid : Int) (st : LoopState) (data : Json) :
    List NonTerm × Option TermItem × LoopState :=
  let md := methodDispatch stream st data
  let ids := idStage stream pid md.2 data
  match ids.2.1 with
  | some t => (md.1 ++ ids.1, some t, ids.2.2)
  | none => (md.1 ++ ids.1, completionCheck ids.2.2, ids.2.2)

/-- Processing of one event of the `async for` body.  A returned terminal
item means the generator yielded it and returned. -/
def stepEvent (env : PromptEnv) (stream : Bool) (pid : Int) (st : LoopState)
    (e : SSEEvent) : List NonTerm × List IOAction × Option TermItem × LoopState :=
  match e with
  | SSEEvent.endpoint path =>
    if st.endpointUrl.isNone then
      -- source lines 189-235; the url join and the bounded poll for
      -- session_configured (timing only) are elided
      let st1 := { st with endpointUrl := some path }
      if !env.initOk then
        ([], [IOAction.postInit path],
         some (TermItem.error (Json.str "Failed to initialize MCP session")), st1)
      else
        let st2 := { st1 with promptSent := true }
        if !acceptStatus env.promptStatus then
          ([], [IOAction.postInit path, IOAction.postPrompt path],
           some (TermItem.error (Json.str ("Failed to send message: " ++
             toString env.promptStatus ++ " - " ++ env.promptText))), st2)
        else
          ([], [IOAction.postInit path, IOAction.postPrompt path],
           completionCheck st2, st2)
    else
      ([], [], completionCheck st, st)
  | SSEEvent.message data =>
    if st.promptSent then
      let r := stepMessage stream pid st data
      (r.1, [], r.2.1, r.2.2)
    else
      ([], [], completionCheck st, st)
  | SSEEvent.invalidJson =>
    -- `json.JSONDecodeError` → logged and `continue` (skips the line-402 check)
    ([], [], none, st)
  | SSEEvent.otherEv =>
    ([], [], completionCheck st, st)
  | SSEEvent.raises ex =>
    ([], [], some (TermItem.error (Json.str (exnMessage ex))), st)

/-- The event loop plus the post-loop best-effort block (source lines
184-422): produces the yielded items and the performed network actions. -/
def runLoop (env : PromptEnv) (stream : Bool) (pid : Int) :
    LoopState → List SSEEvent → List OutItem × List IOAction
  | st, [] =>
    (match st.collectedResult with
     | some r => [OutItem.term (TermItem.result r)]
     | none => [OutItem.term (TermItem.error
         (Json.str "Connection closed without receiving a response"))], [])
  | st, e :: es =>
    let r := stepEvent env stream pid st e
    match r.2.2.1 with
    | some t => (r.1.map OutItem.live ++ [OutItem.term t], r.2.1)
    | none =>
      let rest := runLoop env stream pid r.2.2.2 es
      (r.1.map OutItem.live ++ rest.1, r.2.1 ++ rest.2)

/-- Base address of a registry entry (used only to name the connect
action). -/
def lookupServer : List (String × MCPServer) → String → Option MCPServer
  | [], _ => none
  | (k, v) :: rest, key => if k = key then some v else lookupServer rest key

/-- `MCPSSEClient.send_prompt`: the registry guard, then the SSE loop.
`s0` is the id-counter state at entry, so the prompt request id is the
first value `_get_next_id` returns.  The result is the generator outcome
(`Except.error` = the `ValueError` raised before any I/O) together with the
network actions performed. -/
def send_prompt (baseDir name : String) (env : PromptEnv) (stream : Bool)
    (s0 : Nat) (events : List SSEEvent) :
    Except PyExn (List OutItem) × List IOAction :=
  if ¬ knownServer name then
    (Except.error (PyExn.valueError ("Unknown server: " ++ name)), [])
  else
    let pid : Int := (get_next_id s0).1
    let r := runLoop env stream pid {} events
    (Except.ok r.1,
     IOAction.connectSSE
       ((match lookupServer (servers baseDir) name with
         | some sv => sv.url
         | none => "") ++ "/sse") :: r.2)

/-- The items actually yielded to the consumer: none at all when the
unknown-agent `ValueError` is raised. -/
def sendPromptOuts (baseDir name : String) (env : PromptEnv) (stream : Bool)
    (s0 : Nat) (events : List SSEEvent) : List OutItem :=
  match (send_prompt baseDir name env stream s0 events).1 with
  | Except.ok outs => outs
  | Except.error _ => []

/-! ## Tools listing and health check (`MCPSSEClient.list_tools`,
`MCPSSEClient.health_check`) -/

/-- Fixed outcomes of the HTTP requests `list_tools` makes. -/
structure ToolsEnv where
  initOk : Bool
  toolsStatus : Nat

/-- The loop state of `list_tools` (source lines 590-592; the
`initialized` flag is never read after being set and is omitted). -/
structure LTState where
  endpointUrl : Option String := none
  requestSent : Bool := false

/-- One iteration of the `list_tools` event loop (source lines 594-644).
`some outcome` means the function returned (`Except.ok`) or raised
(`Except.error`, re-raised by the handler at line 646-648). -/
def ltStep (env : ToolsEnv) (st : LTState) (e : SSEEvent) :
    List IOAction × Option (Except PyExn (Option Json)) × LTState :=
  match e with
  | SSEEvent.endpoint path =>
    if st.endpointUrl.isNone then
      let st1 := { st with endpointUrl := some path }
      if env.initOk then
        let st2 := { st1 with requestSent := true }
        if !acceptStatus env.toolsStatus then
          ([IOAction.postInit path, IOAction.postToolsList path],
           some (Except.error (PyExn.other
             ("Failed to send message: " ++ toString env.toolsStatus))), st2)
        else
          ([IOAction.postInit path, IOAction.postToolsList path], none, st2)
      else
        ([IOAction.postInit path],
         some (Except.error (PyExn.other "Failed to initialize session")), st1)
    else
      ([], none, st)
  | SSEEvent.message data =>
    if st.requestSent then
      if jHasKey data "result" then
        -- `result = data["result"]; if "tools" in result: return result`
        -- (a non-dict result value cannot carry "tools" as a key; other
        -- `in` semantics never arise from a JSON-RPC result object)
        match jGetD data "result" Json.null with
        | Json.obj kvs =>
          if (lookupKv kvs "tools").isSome then
            ([], some (Except.ok (some (Json.obj kvs))), st)
          else
            ([], none, st)
        | _ => ([], none, st)
      else if jHasKey data "error" then
        ([], some (Except.error (PyExn.other
          ("Error listing tools: " ++ jsonStr (jGetD data "error" Json.null)))), st)
      else
        ([], none, st)
    else
      ([], none, st)
  | SSEEvent.invalidJson => ([], none, st)
  | SSEEvent.otherEv => ([], none, st)
  | SSEEvent.raises ex => ([], some (Except.error ex), st)

/-- The `list_tools` event loop; falling off the end of the stream returns
Python's implicit `None`. -/
def ltRun (env : ToolsEnv) : LTState → List SSEEvent →
    Except PyExn (Option Json) × List IOAction
  | _, [] => (Except.ok none, [])
  | st, e :: es =>
    let r := ltStep env st e
    match r.2.1 with
    | some outcome => (outcome, r.1)
    | none =>
      let rest := ltRun env r.2.2 es
      (rest.1, r.1 ++ rest.2)

/-- `MCPSSEClient.list_tools`: registry guard (`ValueError` before any
I/O), then the SSE round-trip. -/
def list_tools (baseDir name : String) (env : ToolsEnv)
    (events : List SSEEvent) : Except PyExn (Option Json) × List IOAction :=
  if ¬ knownServer name then
    (Except.error (PyExn.valueError ("Unknown server: " ++ name)), [])
  else
    let r := ltRun env {} events
    (r.1,
     IOAction.connectSSE
       ((match lookupServer (servers baseDir) name with
         | some sv => sv.url
         | none => "") ++ "/sse") :: r.2)

/-- Python `len()` on the parsed `tools` value (an array in every tools
response; other shapes would raise `TypeError` and never arise here). -/
def jLen : Json → Nat
  | Json.arr xs => xs.length
  | Json.str s => s.length
  | Json.obj kvs => kvs.length
  | _ => 0

/-- Stand-in for Python `str()` of a caught exception, used by the health
check's `error:` status. -/
def exnStr : PyExn → String
  | PyExn.timeout => "TimeoutError"
  | PyExn.httpStatus code text => toString code ++ " - " ++ text
  | PyExn.valueError m => m
  | PyExn.other m => m

/-- The per-agent body of `health_check` (source lines 657-673): the
`try`/`except` around `list_tools` plus the status classification.
`if result and "tools" in result:` is Python truthiness of the returned
value followed by key membership. -/
def healthOne (outcome : Except PyExn (Option Json)) : String :=
  match outcome with
  | Except.error PyExn.timeout => "timeout"
  | Except.error e => "error: " ++ (exnStr e).take 50
  | Except.ok result =>
    match result with
    | some (Json.obj kvs) =>
      if pyTruthy (Json.obj kvs) && jHasKey (Json.obj kvs) "tools" then
        "healthy (" ++ toString (jLen (jGetD (Json.obj kvs) "tools" Json.null)) ++ " tools)"
      else
        "unhealthy (no tools)"
    | _ => "unhealthy (no tools)"

/-- The `for server_name in self.servers.keys()` loop of `health_check`,
abstracted over the per-agent `list_tools` outcome. -/
def healthLoop (probe : String → Except PyExn (Option Json)) :
    List String → List (String × String)
  | [] => []
  | n :: ns => (n, healthOne (probe n)) :: healthLoop probe ns

/-- `MCPSSEClient.health_check`: one status entry per configured agent;
every per-agent failure is caught and mapped to a status string. -/
def health_check (probe : String → Except PyExn (Option Json)) :
    List (String × String) :=
  healthLoop probe serverNames

/-! ## Concrete fixtures used in the theorems below -/

/-- An environment in which the handshake and the prompt POST succeed. -/
def goodEnv : PromptEnv := { initOk := true, promptStatus := 202, promptText := "" }

/-- An environment in which the handshake and the tools/list POST succeed. -/
def goodToolsEnv : ToolsEnv := { initOk := true, toolsStatus := 202 }

/-- A gateway-converted message-delta notification carrying fragment `s`. -/
def notifDelta (s : String) : Json :=
  Json.obj [("jsonrpc", Json.str "2.0"),
            ("method", Json.str "notifications/agent_message_delta"),
            ("params", Json.obj [("type", Json.str "agent_message_delta"),
                                 ("delta", Json.str s)])]

/-- A terminal task-complete event arriving as a top-level method
(`method == "task_complete"`, handled at source lines 321-330). -/
def topTaskComplete (lam : Json) : Json :=
  Json.obj [("jsonrpc", Json.str "2.0"),
            ("method", Json.str "task_complete"),
            ("params", Json.obj [("last_agent_message", lam)])]

/-- A terminal task-complete event arriving wrapped in a `codex/event`
envelope (handled at source lines 271-284; this is the form the gateway
passes through unchanged). -/
def codexTaskComplete (lam : Json) : Json :=
  Json.obj [("jsonrpc", Json.str "2.0"),
            ("method", Json.str "codex/event"),
            ("params", Json.obj [("msg", Json.obj
              [("type", Json.str "task_complete"),
               ("last_agent_message", lam)])])]

/-- Two collected fragments, then a top-level terminal with a null final
text: the fragment-union test stream. -/
def helloEvents : List SSEEvent :=
  [SSEEvent.endpoint "/messages/?session_id=s1",
   SSEEvent.message (notifDelta "Hel"),
   SSEEvent.message (notifDelta "lo"),
   SSEEvent.message (topTaskComplete Json.null)]

/-- Two collected fragments, then a `codex/event`-wrapped terminal that
carries its own final text. -/
def mixedEvents : List SSEEvent :=
  [SSEEvent.endpoint "/messages/?session_id=s1",
   SSEEvent.message (notifDelta "Hel"),
   SSEEvent.message (notifDelta "lo"),
   SSEEvent.message (codexTaskComplete (Json.str "Bye"))]

/-- One collected fragment and then the connection closes with no
terminal marker. -/
def partialEvents : List SSEEvent :=
  [SSEEvent.endpoint "/messages/?session_id=s1",
   SSEEvent.message (notifDelta "partial")]

/-- A tools/list round-trip whose response carries an empty tool list. -/
def emptyToolsEvents : List SSEEvent :=
  [SSEEvent.endpoint "/messages/?session_id=s1",
   SSEEvent.message (Json.obj [("jsonrpc", Json.str "2.0"),
     ("result", Json.obj [("tools", Json.arr [])]), ("id", Json.num 2)])]

/-- A concrete native `task_complete` envelope. -/
def tcDemo : Json := codexTaskComplete (Json.str "done")

/-- A concrete native `agent_message_delta` envelope. -/
def deltaDemo : Json :=
  Json.obj [("jsonrpc", Json.str "2.0"),
            ("method", Json.str "codex/event"),
            ("params", Json.obj [("msg", Json.obj
              [("type", Json.str "agent_message_delta"),
               ("delta", Json.str "hi")])])]

/-! ## Helper lemmas -/

theorem nextIds_eq_range_map (n s : Nat) :
    nextIds n s = (List.range n).map (s + ·) := by
  induction n generalizing s with
  | zero => rfl
  | succ n ih =>
    simp [nextIds, get_next_id, List.range_succ_eq_map, ih]
    intro a _
    omega

theorem runLoop_shape (env : PromptEnv) (stream : Bool) (pid : Int) :
    ∀ (events : List SSEEvent) (st : LoopState),
    ∃ pre t, (runLoop env stream pid st events).1 =
      List.map OutItem.live pre ++ [OutItem.term t] := by
  intro events
  induction events with
  | nil =>
    intro st
    cases h : st.collectedResult with
    | some r => exact ⟨[], TermItem.result r, by simp [runLoop, h]⟩
    | none =>
      exact ⟨[], TermItem.error
        (Json.str "Connection closed without receiving a response"),
        by simp [runLoop, h]⟩
  | cons e es ih =>
    intro st
    cases h : (stepEvent env stream pid st e).2.2.1 with
    | some t =>
      exact ⟨(stepEvent env stream pid st e).1, t, by simp [runLoop, h]⟩
    | none =>
      obtain ⟨pre, t, ht⟩ := ih (stepEvent env stream pid st e).2.2.2
      exact ⟨(stepEvent env stream pid st e).1 ++ pre, t,
        by simp [runLoop, h, ht]⟩

/-! ## Claims -/

/-- C5: every sequence of `_get_next_id` calls within one process returns
strictly increasing, pairwise distinct identifiers; no identifier is
reused over the process lifetime.  (The Python body has no suspension
point, so concurrent in-flight requests still produce one serial call
sequence; see `get_next_id`.) -/
theorem C5_request_ids_strictly_increasing (n s : Nat) :
    (nextIds n s).Pairwise (· < ·) ∧ (nextIds n s).Nodup := by
  have hp : (nextIds n s).Pairwise (· < ·) := by
    rw [nextIds_eq_range_map]
    exact (List.pairwise_lt_range n).map _ (fun a b hab => by omega)
  exact ⟨hp, hp.imp (fun hlt => Nat.ne_of_lt hlt)⟩

/-- C6: the session handshake reports success iff both sends receive an
HTTP acceptance status (200 or 202): the `initialize` request — which
carries the protocol version, the capability set, the client identity and
the caller-supplied identifier — and the subsequent `initialized`
notification, which carries no identifier. -/
theorem C6_handshake_success_iff (env : HandshakeEnv) (i : Int) :
    (init_session_with_id env = true ↔
      ((∃ s, env.initResp = Except.ok s ∧ (s = 200 ∨ s = 202)) ∧
       (∃ t, env.notifResp = Except.ok t ∧ (t = 200 ∨ t = 202)))) ∧
    jGet (mkInitRequest i) "id" = some (Json.num i) ∧
    jGet (mkInitRequest i) "method" = some (Json.str "initialize") ∧
    jGet (jGetD (mkInitRequest i) "params" Json.null) "protocolVersion" =
      some (Json.str "0.1.0") ∧
    (jGet (jGetD (mkInitRequest i) "params" Json.null) "capabilities").isSome = true ∧
    (jGet (jGetD (mkInitRequest i) "params" Json.null) "clientInfo").isSome = true ∧
    jGet initdNotif "id" = none ∧
    jGet initdNotif "method" = some (Json.str "notifications/initialized") := by
  refine ⟨?_, rfl, rfl, rfl, rfl, rfl, rfl, rfl⟩
  unfold init_session_with_id
  cases h1 : env.initResp with
  | error e => simp [h1]
  | ok s =>
    cases h2 : env.notifResp with
    | error e2 =>
      by_cases hs : acceptStatus s = true <;>
        simp [h1, h2, hs, acceptStatus] at *
    | ok s2 =>
      by_cases hs : acceptStatus s = true <;>
        by_cases hs2 : acceptStatus s2 = true <;>
        simp [h1, h2, hs, hs2, acceptStatus] at *

/-- C8: a non-JSON subprocess output line (it starts with neither a brace
nor a bracket) containing a known banner phrase produces zero lines on the
gateway's protocol output stream and exactly one diagnostic note on its
error channel. -/
theorem C8_banner_line_suppressed (parse : String → Option Json) (line : String)
    (h1 : strStarts (pyStrip line) "\x7b" = false)
    (h2 : strStarts (pyStrip line) "[" = false)
    (h3 : BANNER_HINTS.any (fun hint => strContains (pyStrip line) hint) = true) :
    filter_stdout_line parse line =
      ([], [GatewayNote.droppedBanner (pyStrip line)]) := by
  unfold filter_stdout_line
  by_cases he : pyStrip line = ""
  · rw [he] at h3
    exact absurd h3 (by decide)
  · simp [he, h1, h2, h3]

theorem C8_witness :
    filter_stdout_line (fun _ => none) "Server is running on port 8081" =
      ([], [GatewayNote.droppedBanner (pyStrip "Server is running on port 8081")]) :=
  C8_banner_line_suppressed (fun _ => none) "Server is running on port 8081"
    (by decide) (by decide) (by decide)

/-- C4: the gateway conversion is the identity on every `codex/event`
envelope whose wrapped event type is `task_complete`, and on no envelope
whose wrapped type is one of the delta/tool kinds. -/
theorem C4_task_complete_passthrough :
    (∀ o : Json,
      jGet (jGetD (jGetD o "params" (Json.obj [])) "msg" (Json.obj [])) "type" =
        some (Json.str "task_complete") →
      convert_event o = some o) ∧
    (∀ (o : Json) (t : String),
      t ∈ (["agent_message_delta", "agent_reasoning_delta",
            "agent_reasoning_raw_content_delta", "mcp_tool_call_begin",
            "mcp_tool_call_end"] : List String) →
      methodIsCodexEvent o = true →
      jGet (jGetD (jGetD o "params" (Json.obj [])) "msg" (Json.obj [])) "type" =
        some (Json.str t) →
      convert_event o ≠ some o) := by
  constructor
  · intro o h
    simp [convert_event, h]
  · intro o t hmem hcodex htype heq
    fin_cases hmem <;>
    · simp [convert_event, htype] at heq
      rw [← heq] at hcodex
      simp [methodIsCodexEvent, jGet, lookupKv] at hcodex

theorem C4_witness :
    convert_event tcDemo = some tcDemo ∧ convert_event deltaDemo ≠ some deltaDemo :=
  ⟨C4_task_complete_passthrough.1 tcDemo rfl,
   C4_task_complete_passthrough.2 deltaDemo "agent_message_delta"
     (by decide) rfl rfl⟩

/-- C7: for an agent name absent from the registry, both `send_prompt` and
`list_tools` raise the unknown-agent `ValueError` before any I/O: no
connection is opened and no request is posted (the performed-action trace
is empty). -/
theorem C7_unknown_agent_fast_fail (baseDir name : String) (env : PromptEnv)
    (stream : Bool) (s0 : Nat) (events : List SSEEvent)
    (tenv : ToolsEnv) (tevents : List SSEEvent)
    (h : knownServer name = false) :
    send_prompt baseDir name env stream s0 events =
      (Except.error (PyExn.valueError ("Unknown server: " ++ name)), []) ∧
    list_tools baseDir name tenv tevents =
      (Except.error (PyExn.valueError ("Unknown server: " ++ name)), []) := by
  constructor <;> simp [send_prompt, list_tools, h]

theorem C7_witness :
    send_prompt "/home/user" "voice" goodEnv false 1 helloEvents =
      (Except.error (PyExn.valueError ("Unknown server: " ++ "voice")), []) ∧
    list_tools "/home/user" "voice" goodToolsEnv emptyToolsEvents =
      (Except.error (PyExn.valueError ("Unknown server: " ++ "voice")), []) :=
  C7_unknown_agent_fast_fail "/home/user" "voice" goodEnv false 1 helloEvents
    goodToolsEnv emptyToolsEvents (by decide)

/-- C9: for every input event stream, the sequence yielded by
`send_prompt` has no terminal (`result` or `error`) item anywhere except
possibly in the last position; in particular at most one terminal item is
ever yielded and nothing follows it. -/
theorem C9_terminal_item_is_last (baseDir name : String) (env : PromptEnv)
    (stream : Bool) (s0 : Nat) (events : List SSEEvent) :
    (sendPromptOuts baseDir name env stream s0 events).dropLast.all
      (fun o => !(isTermOut o)) = true := by
  by_cases h : knownServer name
  · obtain ⟨pre, t, ht⟩ :=
      runLoop_shape env stream ((get_next_id s0).1 : Int) events {}
    simp only [sendPromptOuts, send_prompt, h, not_true, if_neg, ite_false,
      Bool.not_eq_true, not_false_eq_true, if_true, ite_true]
    rw [ht, List.dropLast_concat]
    simp [List.all_eq_true, isTermOut]
  · simp [sendPromptOuts, send_prompt, h]

/-- C10: the health check never raises: every per-agent failure (timeout
or other exception) is caught and mapped to a status string, and the
returned mapping has exactly one status entry for each agent of the
registry, whatever the per-agent outcomes are. -/
theorem C10_health_check_covers_registry
    (probe : String → Except PyExn (Option Json)) :
    (health_check probe).map Prod.fst = serverNames ∧
    serverNames.Nodup ∧
    (∀ n, n ∈ serverNames → (n, healthOne (probe n)) ∈ health_check probe) := by
  refine ⟨rfl, by decide, ?_⟩
  intro n hn
  fin_cases hn <;> simp [health_check, healthLoop]

theorem C10_witness :
    (health_check (fun _ => Except.error PyExn.timeout)).map Prod.fst =
      serverNames ∧
    ("router", healthOne (Except.error PyExn.timeout)) ∈
      health_check (fun _ => Except.error PyExn.timeout) :=
  ⟨(C10_health_check_covers_registry (fun _ => Except.error PyExn.timeout)).1,
   (C10_health_check_covers_registry (fun _ => Except.error PyExn.timeout)).2.2
     "router" (by decide)⟩

/-- C1 counterexample: a stream in which message-delta fragments "Hel",
"lo" arrive as converted notifications and ARE collected (their
concatenation is "Hello"), followed by a terminal `task_complete` event in
its `codex/event`-wrapped form carrying `last_agent_message = "Bye"`: the
final result text is "Bye", taken from the terminal event and not from
the collected fragments — refuting the claimed fragment-preferential
assembly for every event stream. -/
theorem C1_counterexample :
    sendPromptOuts "/home/user" "router" goodEnv false 1 mixedEvents =
      [OutItem.term (TermItem.result (Json.obj
        [("content", Json.arr [Json.obj [("type", Json.str "text"),
                                         ("text", Json.str "Bye")]]),
         ("isError", Json.bool false)]))] ∧
    strJoin [Json.str "Hel", Json.str "lo"] = "Hello" ∧
    Json.str "Bye" ≠ Json.str "Hello" := by
  refine ⟨rfl, rfl, ?_⟩
  intro hcontra
  injection hcontra with hs
  exact absurd hs (by decide)

/-- C1 amended: when the terminal event arrives as a top-level
`task_complete` method message (the form handled at source lines 321-330),
the final result text is the concatenation of the collected message
fragments, falling back to the event's own `last_agent_message` field only
when no fragments were collected; in particular the stream
[message-delta "Hel", message-delta "lo", task_complete(null)] produces
the final result text "Hello".  (A `codex/event`-wrapped terminal instead
takes its text solely from `last_agent_message`; see the counterexample.) -/
theorem C1_amended_fragment_assembly :
    (∀ (stream : Bool) (pid : Int) (st : LoopState) (kvs : List (String × Json)),
      stepMessage stream pid st (Json.obj
        [("method", Json.str "task_complete"), ("params", Json.obj kvs)]) =
      ([], some (TermItem.result (Json.obj
        [ ("reasoning", Json.str (strJoin st.reasoningChunks)),
          ("message",
            if !st.messageChunks.isEmpty then Json.str (strJoin st.messageChunks)
            else jGetD (Json.obj kvs) "last_agent_message" (Json.str "")),
          ("had_retry", Json.bool st.hasToolError) ])),
        { st with
           taskComplete := true,
           collectedResult := some (Json.obj
             [ ("reasoning", Json.str (strJoin st.reasoningChunks)),
               ("message",
                 if !st.messageChunks.isEmpty then Json.str (strJoin st.messageChunks)
                 else jGetD (Json.obj kvs) "last_agent_message" (Json.str "")),
               ("had_retry", Json.bool st.hasToolError) ]) })) ∧
    sendPromptOuts "/home/user" "router" goodEnv false 1 helloEvents =
      [OutItem.term (TermItem.result (Json.obj
        [("reasoning", Json.str ""), ("message", Json.str "Hello"),
         ("had_retry", Json.bool false)]))] := by
  constructor
  · intro stream pid st kvs
    simp [stepMessage, methodDispatch, idStage, completionCheck,
      jGet, jGetD, jHasKey, lookupKv, strStarts, hasPre]
  · rfl

/-- C2 counterexample: a connection that closes after the single collected
message-delta fragment "partial" with no terminal marker yields the error
item "Connection closed without receiving a response" and no result item
at all — refuting the claim that the partially assembled content is
yielded as a result. -/
theorem C2_counterexample :
    sendPromptOuts "/home/user" "router" goodEnv false 1 partialEvents =
      [OutItem.term (TermItem.error
        (Json.str "Connection closed without receiving a response"))] ∧
    (sendPromptOuts "/home/user" "router" goodEnv false 1 partialEvents).all
      (fun o => !(isResultOut o)) = true :=
  ⟨rfl, rfl⟩

/-- C2 amended: when the stream is exhausted without a terminal having
been yielded, the loop yields the collected result payload if one exists
(best-effort), and otherwise — in particular when only message-delta
fragments were collected, since fragments alone never form a collected
result — yields the error "Connection closed without receiving a
response". -/
theorem C2_amended_close_behavior (env : PromptEnv) (stream : Bool)
    (pid : Int) (st : LoopState) :
    (∀ r, st.collectedResult = some r →
      (runLoop env stream pid st []).1 = [OutItem.term (TermItem.result r)]) ∧
    (st.collectedResult = none →
      (runLoop env stream pid st []).1 =
        [OutItem.term (TermItem.error
          (Json.str "Connection closed without receiving a response"))]) := by
  constructor
  · intro r h
    simp [runLoop, h]
  · intro h
    simp [runLoop, h]

theorem C2_witness :
    (runLoop goodEnv false 1 { collectedResult := some (Json.str "x") } []).1 =
      [OutItem.term (TermItem.result (Json.str "x"))] :=
  (C2_amended_close_behavior goodEnv false 1
    { collectedResult := some (Json.str "x") }).1 (Json.str "x") rfl

/-- C3 counterexample: an agent whose tools/list round-trip returns the
empty tool list `{"tools": []}` is classified "healthy (0 tools)", not
unhealthy — refuting the claimed empty-list-unhealthy behaviour (the
returned dict is truthy and carries the "tools" key). -/
theorem C3_counterexample :
    healthOne (list_tools "/home/user" "office" goodToolsEnv emptyToolsEvents).1 =
      "healthy (0 tools)" ∧
    "healthy (0 tools)" ≠ "unhealthy (no tools)" :=
  ⟨rfl, by decide⟩

/-- C3 amended: the health check reports "healthy (N tools)" whenever the
tools/list round-trip returns a tools-bearing result — including N = 0 for
an empty tool list — and reports "unhealthy (no tools)" only when the
round-trip completes without any tools-bearing result (or the result lacks
the tools field). -/
theorem C3_amended_health_classification :
    (∀ (kvs : List (String × Json)) (ts : List Json),
      lookupKv kvs "tools" = some (Json.arr ts) →
      healthOne (Except.ok (some (Json.obj kvs))) =
        "healthy (" ++ toString ts.length ++ " tools)") ∧
    healthOne (Except.ok none) = "unhealthy (no tools)" ∧
    (∀ kvs : List (String × Json), lookupKv kvs "tools" = none →
      healthOne (Except.ok (some (Json.obj kvs))) = "unhealthy (no tools)") := by
  refine ⟨?_, rfl, ?_⟩
  · intro kvs ts h
    have hne : kvs.isEmpty = false := by
      cases kvs with
      | nil => simp [lookupKv] at h
      | cons hd tl => rfl
    unfold healthOne
    simp only [pyTruthy, jHasKey, jGet, jGetD, h, hne, Bool.not_false,
      Option.isSome_some, Bool.and_self, if_true, Option.getD_some, jLen]
  · intro kvs h
    unfold healthOne
    simp only [jHasKey, jGet, h, Option.isSome_none, Bool.and_false, if_false,
      Bool.false_eq_true, ite_false]

theorem C3_witness :
    healthOne (Except.ok (some (Json.obj [("tools", Json.arr [Json.obj []])]))) =
      "healthy (1 tools)" := by
  rw [C3_amended_health_classification.1 [("tools", Json.arr [Json.obj []])]
    [Json.obj []] rfl]
  rfl
